import Mathlib

/-!
Shallow embedding of `src/run.py` (screen_streamer): a WebSocket server that
captures the desktop, converts each frame to RGB565 and streams it to an
ESP32-S3 AMOLED display.  The pixel pipeline (`capture_and_process_frame`)
is embedded as pure functions on an explicit image model; the per-connection
stream loop (`handler`) as a function over a finite schedule of per-iteration
events.
-/

namespace ScreenStreamer

/-! ### Configuration constants (src/run.py lines 24-27) -/

def DISPLAY_WIDTH : Nat := 410

def DISPLAY_HEIGHT : Nat := 502

def WEBSOCKET_PORT : Nat := 81

def TARGET_FPS : Nat := 20

/-! ### Data model -/

/-- One pixel with 8-bit channels held as naturals (uint8 values are `< 256`). -/
structure Pixel where
  r : Nat
  g : Nat
  b : Nat
deriving Repr, DecidableEq

/-- An in-memory image: dimensions plus a pixel lookup `pix x y`
(`x` = column, `y` = row, top-left origin), matching PIL's coordinate
convention. -/
structure Image where
  width : Nat
  height : Nat
  pix : Nat → Nat → Pixel

/-- A raw capture frame as delivered by `sct.grab`: dimensions and the
4-byte-per-pixel BGRA buffer (`sct_img.bgra`), row-major, bytes as naturals
`< 256`. -/
structure RawFrame where
  width : Nat
  height : Nat
  bgra : List Nat

/-- The structural failure of the pipeline (PIL raises `ValueError` when a
frame's buffer holds too little data for its size; the spec names this
condition `InvalidFrame`). -/
inductive PipelineError where
  | invalidFrame
deriving Repr, DecidableEq

/-! ### Pixel pipeline (src/run.py lines 66-100, `capture_and_process_frame`) -/

/-- `Image.frombytes("RGB", sct_img.size, sct_img.bgra, "raw", "BGRX")`
(run.py line 75).  The raw mode `BGRX` reads each pixel's 4 bytes as
blue, green, red, ignored.  PIL's raw decoder fails with
`ValueError("not enough image data")` when the buffer holds fewer than
`4 * width * height` bytes, and silently ignores any excess bytes beyond
that count. -/
def frombytesBGRX (f : RawFrame) : Except PipelineError Image :=
  if 4 * (f.width * f.height) ≤ f.bgra.length then
    .ok { width := f.width
          height := f.height
          pix := fun x y =>
            let i := 4 * (y * f.width + x)
            { r := f.bgra.getD (i + 2) 0
              g := f.bgra.getD (i + 1) 0
              b := f.bgra.getD i 0 } }
  else
    .error .invalidFrame

/-- `img.rotate(90, expand=True)` (run.py line 79).  For a right angle with
`expand=True` and no center/translate, PIL performs the exact transpose
`ROTATE_90` (90 degrees counterclockwise): the output is `height x width`
and output pixel `(x, y)` is input pixel `(width - 1 - y, x)`. -/
def rotate90 (img : Image) : Image :=
  { width := img.height
    height := img.width
    pix := fun x y => img.pix (img.width - 1 - y) x }

/-- `img_rotated.resize((DISPLAY_WIDTH, DISPLAY_HEIGHT))` (run.py line 82).
The resampling kernel (PIL's default bicubic) is abstracted as `sampler`;
the geometry is exact: the output image has exactly the requested size.
Modelled from the spec: PIL's behaviour on an empty source image is library
code not under src/; spec section 4.1/7 fixes the failure mode of a
zero-dimension frame as `InvalidFrame`, which is modelled here as the
error result on an empty source. -/
def resize (sampler : Image → Nat → Nat → Pixel) (img : Image) (size : Nat × Nat) :
    Except PipelineError Image :=
  if img.width = 0 ∨ img.height = 0 then
    .error .invalidFrame
  else
    .ok { width := size.1, height := size.2, pix := sampler img }

/-- The RGB565 packing of one pixel (run.py line 97), computed as numpy
does on `uint16` operands: each channel is first widened to 16 bits
(`astype(np.uint16)`, lines 89-91), then
`((r & 0xF8) << 8) | ((g & 0xFC) << 3) | (b >> 3)` with every
intermediate reduced mod 2^16. -/
def rgb565Word (r g b : Nat) : Nat :=
  (((r &&& 0xF8) <<< 8) % 2 ^ 16) ||| ((((g &&& 0xFC) <<< 3) % 2 ^ 16) ||| ((b >>> 3) % 2 ^ 16))

/-- One `uint16` value serialized as numpy `tobytes()` does on a
little-endian host: low byte first. -/
def wordToBytesLE (w : Nat) : List Nat :=
  [w % 256, w / 256 % 256]

/-- `np.array(img_resized)` followed by the channel split, the RGB565
packing and `rgb565.tobytes()` (run.py lines 86-100): the numpy array is
row-major `(height, width)`, so the output bytes walk rows top to bottom,
pixels left to right, two bytes per pixel. -/
def packImage (img : Image) : List Nat :=
  (List.range img.height).flatMap fun y =>
    (List.range img.width).flatMap fun x =>
      wordToBytesLE (rgb565Word (img.pix x y).r (img.pix x y).g (img.pix x y).b)

/-- `capture_and_process_frame` (run.py lines 66-100) applied to the raw
frame produced by `sct.grab(monitor)`: decode BGRX, rotate 90 degrees with
expansion, resize to the display geometry, pack to RGB565 bytes. -/
def capture_and_process_frame (sampler : Image → Nat → Nat → Pixel) (raw : RawFrame) :
    Except PipelineError (List Nat) := do
  let img ← frombytesBGRX raw
  let imgRotated := rotate90 img
  let imgResized ← resize sampler imgRotated (DISPLAY_WIDTH, DISPLAY_HEIGHT)
  pure (packImage imgResized)

/-! ### Stream loop (src/run.py lines 103-119, `handler`)

The per-connection handler is
`with mss() as sct: try: while True: frame = capture_and_process_frame(sct);
await websocket.send(frame); await asyncio.sleep(1 / TARGET_FPS)
except ConnectionClosed: ... except Exception: ... finally: ...`.
It is embedded as a function over a finite schedule of per-iteration events:
the schedule is a prefix of the (unbounded) loop's behaviour, each entry
saying whether the iteration completed or which call raised which kind of
exception. -/

/-- The Python exception raised inside the loop body, classified the way the
handler's `except` clauses classify it: `connectionClosed` is
`websockets.exceptions.ConnectionClosed`; `captureUnavailable` (the capture
primitive failed, e.g. mss `ScreenShotError`), `invalidFrame` (the pipeline's
structural `ValueError`) and `otherException` are all other subclasses of
`Exception`. -/
inductive ExcKind where
  | connectionClosed
  | captureUnavailable
  | invalidFrame
  | otherException
deriving Repr, DecidableEq

/-- What one iteration of the `while True` loop does: either every call
returns (`success` — one frame captured, transformed, sent, then the sleep),
or one of the three calls raises. -/
inductive StepEvent where
  | success
  | captureRaise (k : ExcKind)
  | transformRaise (k : ExcKind)
  | sendRaise (k : ExcKind)
deriving Repr, DecidableEq

/-- Which `except` clause of `handler` (run.py lines 114-117) handles an
exception escaping the loop body. -/
inductive Branch where
  | disconnectBranch
  | genericBranch
deriving Repr, DecidableEq

/-- Python's type-directed dispatch over the two `except` clauses:
`except websockets.exceptions.ConnectionClosed` matches only that class;
`except Exception` matches every other kind.  The code has no clause
distinguishing a capture failure from an invalid frame. -/
def handlerBranch : ExcKind → Branch
  | .connectionClosed => .disconnectBranch
  | .captureUnavailable => .genericBranch
  | .invalidFrame => .genericBranch
  | .otherException => .genericBranch

/-- Session status of the spec's stream-loop state machine. -/
inductive Status where
  | streaming
  | closed
deriving Repr, DecidableEq

/-- Result of running the `while True` body over a finite schedule:
how many frames were fully sent, and the exception that escaped the loop
body, if any (`none` means the schedule ended with the loop still going). -/
structure LoopOutcome where
  framesSent : Nat
  exc : Option ExcKind
deriving Repr, DecidableEq

/-- The `while True` loop (run.py lines 109-113) over a finite schedule.
A `success` iteration sends one complete frame and continues; a raising
iteration sends nothing further (when `capture_and_process_frame` raises no
send is attempted, and a raising send delivers no complete frame) and the
exception leaves the loop. -/
def streamLoop : List StepEvent → Nat → LoopOutcome
  | [], n => { framesSent := n, exc := none }
  | e :: rest, n =>
    match e with
    | .success => streamLoop rest (n + 1)
    | .captureRaise k => { framesSent := n, exc := some k }
    | .transformRaise k => { framesSent := n, exc := some k }
    | .sendRaise k => { framesSent := n, exc := some k }

/-- Observable outcome of one `handler` invocation. `captureReleased` is
whether the `with mss() as sct` block has exited (releasing the capture
handle); `raised` is whether an exception propagated out of `handler`;
`branch` records which `except` clause ran. -/
structure HandlerResult where
  framesSent : Nat
  status : Status
  branch : Option Branch
  captureReleased : Bool
  raised : Bool
deriving Repr, DecidableEq

/-- The `try/except/finally` of `handler` (run.py lines 108-119) around the
loop outcome.  If the schedule ends with the loop still iterating, the
session is still `streaming` and the `with` block has not exited.  When an
exception escapes the loop body, the matching `except` clause absorbs it,
the `finally` runs, the `with` block releases the capture object and
`handler` returns with no exception. -/
def handlerFromOutcome (r : LoopOutcome) : HandlerResult :=
  match r.exc with
  | none =>
      { framesSent := r.framesSent, status := .streaming, branch := none
        captureReleased := false, raised := false }
  | some k =>
      match handlerBranch k with
      | .disconnectBranch =>
          { framesSent := r.framesSent, status := .closed
            branch := some .disconnectBranch
            captureReleased := true, raised := false }
      | .genericBranch =>
          { framesSent := r.framesSent, status := .closed
            branch := some .genericBranch
            captureReleased := true, raised := false }

/-- The whole `handler` (run.py lines 103-119) over a finite schedule:
create the capture object, run the `while True` loop, dispatch over the
`except` clauses on exit. -/
def handler (sched : List StepEvent) : HandlerResult :=
  handlerFromOutcome (streamLoop sched 0)

/-- Modelled from the spec: the Connection Server (`websockets.serve` in
`main`, run.py line 137, library code not under src/) runs one handler per
accepted connection and, per spec sections 4.4 and 7, keeps accepting new
connections regardless of how earlier sessions ended. -/
def serve (conns : List (List StepEvent)) : List HandlerResult :=
  conns.map handler

/-! ### Iteration-order and timing model (for the rate bound) -/

/-- The fixed sleep interval `1 / TARGET_FPS` seconds (run.py line 113),
as an exact rational. -/
def SLEEP_INTERVAL : ℚ := 1 / TARGET_FPS

/-- One observable action of the loop body, in program order. -/
inductive Action where
  | capture
  | transform
  | send
  | sleep (interval : ℚ)
deriving Repr, DecidableEq

/-- The actions of one completed iteration, in the order the code runs them:
capture, transform, send, then `asyncio.sleep(1 / TARGET_FPS)`. -/
def successBlock : List Action :=
  [.capture, .transform, .send, .sleep SLEEP_INTERVAL]

/-- The actions one iteration performs before its outcome: a raising call
ends the iteration at that call (no retry, nothing after it runs). -/
def iterActions : StepEvent → List Action
  | .success => successBlock
  | .captureRaise _ => [.capture]
  | .transformRaise _ => [.capture, .transform]
  | .sendRaise _ => [.capture, .transform, .send]

/-- The action trace of the loop over a schedule: iterations run strictly
one after another (nothing is pipelined), and the first raising iteration
is the last. -/
def loopTrace : List StepEvent → List Action
  | [] => []
  | e :: rest =>
    match e with
    | .success => successBlock ++ loopTrace rest
    | _ => iterActions e

/-- Total wall-clock time of a trace, given the duration of each action.
Actions are sequential, so durations add. -/
def elapsedTime (dur : Action → ℚ) : List Action → ℚ
  | [] => 0
  | a :: rest => dur a + elapsedTime dur rest

/-! ### Helper lemmas -/

/-- Flat-mapping a function whose every output has length `c` multiplies
the length by `c`. -/
lemma length_flatMap_const {α β : Type} (f : α → List β) (c : Nat) (l : List α)
    (h : ∀ a, (f a).length = c) : (l.flatMap f).length = c * l.length := by
  induction l with
  | nil => simp
  | cons a t ih =>
      rw [List.flatMap_cons, List.length_append, h, ih, List.length_cons, Nat.mul_succ,
        Nat.add_comm]

/-- The packed buffer always has two bytes per pixel of the packed image. -/
lemma packImage_length (img : Image) :
    (packImage img).length = 2 * (img.width * img.height) := by
  unfold packImage
  have hrow : ∀ y : Nat, ((List.range img.width).flatMap fun x =>
      wordToBytesLE (rgb565Word (img.pix x y).r (img.pix x y).g (img.pix x y).b)).length
      = 2 * img.width := by
    intro y
    rw [length_flatMap_const
      (fun x => wordToBytesLE (rgb565Word (img.pix x y).r (img.pix x y).g (img.pix x y).b))
      2 (List.range img.width) (fun x => rfl), List.length_range]
  rw [length_flatMap_const _ (2 * img.width) _ hrow, List.length_range]
  ring

/-- Running the loop over `n` successful iterations and then `rest` counts
`n` more sent frames. -/
lemma streamLoop_replicate_success (n : Nat) (rest : List StepEvent) (k : Nat) :
    streamLoop (List.replicate n .success ++ rest) k = streamLoop rest (k + n) := by
  induction n generalizing k with
  | zero => simp
  | succ m ih =>
      rw [List.replicate_succ, List.cons_append]
      show streamLoop (List.replicate m .success ++ rest) (k + 1) = _
      rw [ih]
      congr 1
      omega

/-- The action trace of `n` successful iterations followed by `rest`. -/
lemma loopTrace_replicate_success (n : Nat) (rest : List StepEvent) :
    loopTrace (List.replicate n .success ++ rest)
      = (List.replicate n successBlock).flatten ++ loopTrace rest := by
  induction n with
  | zero => simp
  | succ m ih =>
      rw [List.replicate_succ, List.cons_append]
      show successBlock ++ loopTrace (List.replicate m .success ++ rest) = _
      rw [ih, List.replicate_succ, List.flatten_cons, List.append_assoc]

/-- Durations of sequential traces add. -/
lemma elapsedTime_append (dur : Action → ℚ) (l1 l2 : List Action) :
    elapsedTime dur (l1 ++ l2) = elapsedTime dur l1 + elapsedTime dur l2 := by
  induction l1 with
  | nil =>
      show elapsedTime dur l2 = 0 + elapsedTime dur l2
      rw [zero_add]
  | cons a t ih =>
      rw [List.cons_append]
      show dur a + elapsedTime dur (t ++ l2)
        = dur a + elapsedTime dur t + elapsedTime dur l2
      rw [ih, add_assoc]

/-- No exception ever propagates out of the `try/except` dispatch. -/
lemma handlerFromOutcome_raised (r : LoopOutcome) :
    (handlerFromOutcome r).raised = false := by
  rcases r with ⟨m, e⟩
  cases e with
  | none => rfl
  | some k => cases k <;> rfl

/-- Whenever the dispatch closes the session, the `with` block has released
the capture object. -/
lemma handlerFromOutcome_released (r : LoopOutcome)
    (h : (handlerFromOutcome r).status = .closed) :
    (handlerFromOutcome r).captureReleased = true := by
  rcases r with ⟨m, e⟩
  cases e with
  | none => simp [handlerFromOutcome] at h
  | some k => cases k <;> rfl

/-- The loop outcome does not depend on which of the three calls of the
iteration raised, only on where the raising iteration is and what it
raised. -/
lemma streamLoop_raise_pair (pre : List StepEvent) (k : ExcKind) (n : Nat) :
    streamLoop (pre ++ [.captureRaise k]) n = streamLoop (pre ++ [.transformRaise k]) n ∧
    streamLoop (pre ++ [.transformRaise k]) n = streamLoop (pre ++ [.sendRaise k]) n := by
  induction pre generalizing n with
  | nil => exact ⟨rfl, rfl⟩
  | cons a t ih =>
      cases a with
      | success => exact ⟨(ih (n + 1)).1, (ih (n + 1)).2⟩
      | captureRaise k2 => exact ⟨rfl, rfl⟩
      | transformRaise k2 => exact ⟨rfl, rfl⟩
      | sendRaise k2 => exact ⟨rfl, rfl⟩

/-! ### Claims -/

/-- C1: for every valid raw capture frame (4 bytes per pixel in the buffer)
with non-zero width and height, and any resampling kernel,
`capture_and_process_frame` succeeds and its output byte buffer has length
exactly `2 * DISPLAY_WIDTH * DISPLAY_HEIGHT`, which with the configured
410 x 502 geometry is 411640 bytes — regardless of the raw frame's
dimensions. -/
theorem c1_transform_output_length (sampler : Image → Nat → Nat → Pixel) (raw : RawFrame)
    (hlen : raw.bgra.length = 4 * (raw.width * raw.height))
    (hw : 0 < raw.width) (hh : 0 < raw.height) :
    Except.map List.length (capture_and_process_frame sampler raw)
      = .ok (2 * (DISPLAY_WIDTH * DISPLAY_HEIGHT)) ∧
    2 * (DISPLAY_WIDTH * DISPLAY_HEIGHT) = 411640 := by
  refine ⟨?_, by decide⟩
  unfold capture_and_process_frame frombytesBGRX resize
  rw [if_pos (le_of_eq hlen.symm)]
  simp only [Except.bind, bind, rotate90]
  rw [if_neg ?_]
  · simp only [Except.map, pure, Except.pure, packImage_length]
  · simp only [not_or]
    omega

/-- Witness for C1 on a concrete 1 x 1 raw frame. -/
theorem c1_transform_output_length_witness :
    Except.map List.length
        (capture_and_process_frame (fun _ _ _ => ⟨0, 0, 0⟩) ⟨1, 1, [10, 20, 30, 40]⟩)
      = .ok (2 * (DISPLAY_WIDTH * DISPLAY_HEIGHT)) ∧
    2 * (DISPLAY_WIDTH * DISPLAY_HEIGHT) = 411640 :=
  c1_transform_output_length (fun _ _ _ => ⟨0, 0, 0⟩) ⟨1, 1, [10, 20, 30, 40]⟩
    (by decide) (by decide) (by decide)

/-- C2: the packed word is exactly
`((R & 0xF8) << 8) | ((G & 0xFC) << 3) | (B >> 3)` for 8-bit channels —
the uint16 widening makes every mod-2^16 reduction a no-op — and the four
solid colours pack to 0xF800, 0x07E0, 0x001F and 0xFFFF. -/
theorem c2_rgb565_formula :
    (∀ r g b : Nat, r < 256 → g < 256 → b < 256 →
      rgb565Word r g b = ((r &&& 0xF8) <<< 8) ||| ((g &&& 0xFC) <<< 3) ||| (b >>> 3)) ∧
    rgb565Word 255 0 0 = 0xF800 ∧
    rgb565Word 0 255 0 = 0x07E0 ∧
    rgb565Word 0 0 255 = 0x001F ∧
    rgb565Word 255 255 255 = 0xFFFF := by
  refine ⟨?_, by decide, by decide, by decide, by decide⟩
  intro r g b hr hg hb
  have h1 : r &&& 0xF8 ≤ 0xF8 := Nat.and_le_right
  have h2 : g &&& 0xFC ≤ 0xFC := Nat.and_le_right
  have h3 : b >>> 3 ≤ b := by
    rw [Nat.shiftRight_eq_div_pow]
    exact Nat.div_le_self _ _
  unfold rgb565Word
  rw [Nat.shiftLeft_eq, Nat.shiftLeft_eq]
  rw [Nat.mod_eq_of_lt (by omega), Nat.mod_eq_of_lt (by omega),
    Nat.mod_eq_of_lt (by omega), Nat.or_assoc]

/-- Witness for C2's quantified part at a concrete pixel. -/
theorem c2_rgb565_formula_witness :
    rgb565Word 17 99 200 = ((17 &&& 0xF8) <<< 8) ||| ((99 &&& 0xFC) <<< 3) ||| (200 >>> 3) :=
  c2_rgb565_formula.1 17 99 200 (by decide) (by decide) (by decide)

set_option maxRecDepth 4000 in
/-- For a byte, masking with 0xF8 keeps exactly the top five bits. -/
lemma and_f8_eq : ∀ n < 256, n &&& 0xF8 = (n >>> 3) <<< 3 := by decide

set_option maxRecDepth 4000 in
/-- For a byte, masking with 0xFC keeps exactly the top six bits. -/
lemma and_fc_eq : ∀ n < 256, n &&& 0xFC = (n >>> 2) <<< 2 := by decide

/-- C10: the packed word ignores the discarded low bits — two pixels whose
channels agree on the top 5 bits of red, 6 of green and 5 of blue pack to
the same RGB565 word. -/
theorem c10_rgb565_low_bits (r g b r' g' b' : Nat)
    (hr : r < 256) (hg : g < 256) (hb : b < 256)
    (hr' : r' < 256) (hg' : g' < 256) (hb' : b' < 256)
    (h1 : r >>> 3 = r' >>> 3) (h2 : g >>> 2 = g' >>> 2) (h3 : b >>> 3 = b' >>> 3) :
    rgb565Word r g b = rgb565Word r' g' b' := by
  unfold rgb565Word
  rw [and_f8_eq r hr, and_f8_eq r' hr', and_fc_eq g hg, and_fc_eq g' hg', h1, h2, h3]

/-- Witness for C10: (7,3,200) and (0,1,201) differ only in discarded bits
and pack identically. -/
theorem c10_rgb565_low_bits_witness : rgb565Word 7 3 200 = rgb565Word 0 1 201 :=
  c10_rgb565_low_bits 7 3 200 0 1 201 (by decide) (by decide) (by decide)
    (by decide) (by decide) (by decide) (by decide) (by decide) (by decide)

/-- C3: `rotate90` swaps width and height, sends every in-range input pixel
`(x, y)` to its rotated position `(y, width - 1 - x)`, and that position map
is injective on the input grid, so no pixel is cropped or lost. -/
theorem c3_rotate90_pure (img : Image) (x y : Nat)
    (hx : x < img.width) (hy : y < img.height) :
    ((rotate90 img).width = img.height ∧ (rotate90 img).height = img.width) ∧
    (rotate90 img).pix y (img.width - 1 - x) = img.pix x y ∧
    (∀ x2 y2, x2 < img.width → y2 < img.height →
      (y, img.width - 1 - x) = (y2, img.width - 1 - x2) → x = x2 ∧ y = y2) := by
  refine ⟨⟨rfl, rfl⟩, ?_, ?_⟩
  · show img.pix (img.width - 1 - (img.width - 1 - x)) y = img.pix x y
    have hxx : img.width - 1 - (img.width - 1 - x) = x := by omega
    rw [hxx]
  · intro x2 y2 hx2 hy2 hpair
    have hfst := congrArg Prod.fst hpair
    have hsnd := congrArg Prod.snd hpair
    simp only [] at hfst hsnd
    omega

/-- Witness for C3 on a 3 x 2 image whose pixels encode their coordinates:
the marker pixel at (1, 0) reappears at its rotated position (0, 1). -/
theorem c3_rotate90_pure_witness :
    (rotate90 ⟨3, 2, fun x y => ⟨x, y, 0⟩⟩).pix 0 (3 - 1 - 1)
      = Image.pix ⟨3, 2, fun x y => ⟨x, y, 0⟩⟩ 1 0 :=
  (c3_rotate90_pure ⟨3, 2, fun x y => ⟨x, y, 0⟩⟩ 1 0 (by decide) (by decide)).2.1

/-- C4: decoding the 4-channel BGRX capture buffer yields an RGB image whose
red channel is the capture's red byte (offset 2 in each 4-byte pixel), green
is offset 1, blue is offset 0 — red and blue swapped from the buffer order —
and the result never depends on the 4th (padding/alpha) byte: two buffers of
the same dimensions agreeing everywhere except at offsets congruent to
3 mod 4 decode identically. -/
theorem c4_bgrx_to_rgb (f f2 : RawFrame)
    (hlen : f.bgra.length = 4 * (f.width * f.height)) :
    (∃ img, frombytesBGRX f = .ok img ∧
      ∀ x y,
        (img.pix x y).r = f.bgra.getD (4 * (y * f.width + x) + 2) 0 ∧
        (img.pix x y).g = f.bgra.getD (4 * (y * f.width + x) + 1) 0 ∧
        (img.pix x y).b = f.bgra.getD (4 * (y * f.width + x)) 0) ∧
    (f2.width = f.width → f2.height = f.height → f2.bgra.length = f.bgra.length →
      (∀ i, i % 4 ≠ 3 → f2.bgra.getD i 0 = f.bgra.getD i 0) →
      frombytesBGRX f2 = frombytesBGRX f) := by
  constructor
  · have hok : ∃ img, frombytesBGRX f = .ok img := by
      rw [frombytesBGRX, if_pos (le_of_eq hlen.symm)]
      exact ⟨_, rfl⟩
    obtain ⟨img, hok⟩ := hok
    refine ⟨img, hok, ?_⟩
    have himg : frombytesBGRX f = .ok img := hok
    rw [frombytesBGRX, if_pos (le_of_eq hlen.symm)] at himg
    cases himg
    intro x y
    exact ⟨rfl, rfl, rfl⟩
  · intro hw hh hl hagree
    have hlen2 : f2.bgra.length = 4 * (f2.width * f2.height) := by
      rw [hl, hw, hh]; exact hlen
    rw [frombytesBGRX, frombytesBGRX, if_pos (le_of_eq hlen.symm),
      if_pos (le_of_eq hlen2.symm)]
    congr 1
    rw [Image.mk.injEq]
    refine ⟨hw, hh, ?_⟩
    funext x y
    simp only [Pixel.mk.injEq]
    rw [hw]
    exact ⟨hagree _ (by omega), hagree _ (by omega), hagree _ (by omega)⟩

/-- Witness for C4 on a 1 x 1 frame: changing only the padding byte
(4 to 99) leaves the decoded image unchanged. -/
theorem c4_bgrx_to_rgb_witness :
    frombytesBGRX ⟨1, 1, [1, 2, 3, 99]⟩ = frombytesBGRX ⟨1, 1, [1, 2, 3, 4]⟩ :=
  (c4_bgrx_to_rgb ⟨1, 1, [1, 2, 3, 4]⟩ ⟨1, 1, [1, 2, 3, 99]⟩ (by decide)).2
    rfl rfl rfl (fun i hi => by
      by_cases h4 : i < 4
      · interval_cases i
        · rfl
        · rfl
        · rfl
        · exact absurd rfl hi
      · rw [List.getD_eq_default, List.getD_eq_default] <;> simp <;> omega)

/-- C5: a `STREAMING` session whose capture raises `CaptureUnavailable` on
iteration `N` (`N ≥ 1`) sends exactly `N - 1` complete frames, transitions
to `CLOSED` with the capture handle released and no exception escaping, and
the trace of iteration `N` is a single capture attempt — no retry, no
partial frame sent. -/
theorem c5_capture_unavailable_aborts (N : Nat) (hN : 1 ≤ N) :
    handler (List.replicate (N - 1) .success ++ [.captureRaise .captureUnavailable])
      = { framesSent := N - 1, status := .closed, branch := some .genericBranch
          captureReleased := true, raised := false } ∧
    loopTrace (List.replicate (N - 1) .success ++ [.captureRaise .captureUnavailable])
      = (List.replicate (N - 1) successBlock).flatten ++ [.capture] := by
  constructor
  · unfold handler
    rw [streamLoop_replicate_success]
    show handlerFromOutcome ⟨0 + (N - 1), some .captureUnavailable⟩ = _
    rw [Nat.zero_add]
    rfl
  · rw [loopTrace_replicate_success]
    rfl

/-- Witness for C5 at `N = 3`: two frames are sent, then the session
closes. -/
theorem c5_capture_unavailable_aborts_witness :
    handler (List.replicate 2 .success ++ [.captureRaise .captureUnavailable])
      = { framesSent := 2, status := .closed, branch := some .genericBranch
          captureReleased := true, raised := false } :=
  (c5_capture_unavailable_aborts 3 (by decide)).1

/-- C6: a peer disconnect during `send` closes the session through the
`ConnectionClosed` clause with nothing raised out of the handler and the
capture released, and the Connection Server runs a fresh handler for the
next accepted connection no matter how the previous sessions ended. -/
theorem c6_disconnect_clean_close (n : Nat) (cs : List (List StepEvent))
    (c : List StepEvent) :
    handler (List.replicate n .success ++ [.sendRaise .connectionClosed])
      = { framesSent := n, status := .closed, branch := some .disconnectBranch
          captureReleased := true, raised := false } ∧
    serve (cs ++ [c]) = serve cs ++ [handler c] := by
  constructor
  · unfold handler
    rw [streamLoop_replicate_success]
    show handlerFromOutcome ⟨0 + n, some .connectionClosed⟩ = _
    rw [Nat.zero_add]
    rfl
  · simp [serve]

/-- Counterexample to C7 as stated: the 1 x 1 frame with the five-byte
buffer `[1, 2, 3, 4, 5]` is malformed (its length is not 4 bytes per
pixel), yet the pipeline does not fail — the decoder ignores the excess
byte and a complete 411640-byte output buffer is emitted. -/
theorem c7_overlong_counterexample :
    Except.map List.length
        (capture_and_process_frame (fun _ _ _ => ⟨0, 0, 0⟩) ⟨1, 1, [1, 2, 3, 4, 5]⟩)
      = .ok 411640 ∧
    (⟨1, 1, [1, 2, 3, 4, 5]⟩ : RawFrame).bgra.length
      ≠ 4 * ((⟨1, 1, [1, 2, 3, 4, 5]⟩ : RawFrame).width
          * (⟨1, 1, [1, 2, 3, 4, 5]⟩ : RawFrame).height) := by
  constructor
  · unfold capture_and_process_frame frombytesBGRX resize
    rw [if_pos (by decide)]
    simp only [Except.bind, bind, rotate90]
    rw [if_neg (by decide)]
    simp only [Except.map, pure, Except.pure, packImage_length]
    rfl
  · decide

/-- C7 (amended): a raw frame whose buffer is too short for its dimensions
(fewer than 4 bytes per pixel — PIL's `not enough image data`) or that has
zero width or height makes the pipeline fail with `InvalidFrame` instead of
producing a buffer, and in the stream loop an iteration whose transform
raises sends nothing — the session closes with exactly the previously
completed frames sent.  (An over-long buffer is not rejected: the decoder
ignores the excess bytes, per the counterexample above.) -/
theorem c7_invalid_frame_propagates (sampler : Image → Nat → Nat → Pixel) (raw : RawFrame)
    (hbad : raw.width = 0 ∨ raw.height = 0 ∨
      raw.bgra.length < 4 * (raw.width * raw.height)) :
    capture_and_process_frame sampler raw = .error .invalidFrame ∧
    (∀ n, handler (List.replicate n .success ++ [.transformRaise .invalidFrame])
      = { framesSent := n, status := .closed, branch := some .genericBranch
          captureReleased := true, raised := false }) := by
  constructor
  · by_cases hlen : 4 * (raw.width * raw.height) ≤ raw.bgra.length
    · have hzero : raw.width = 0 ∨ raw.height = 0 := by
        rcases hbad with h | h | h
        · exact Or.inl h
        · exact Or.inr h
        · exact absurd hlen (Nat.not_le.mpr h)
      unfold capture_and_process_frame frombytesBGRX resize
      rw [if_pos hlen]
      simp only [Except.bind, bind, rotate90]
      rw [if_pos (show raw.height = 0 ∨ raw.width = 0 by omega)]
    · unfold capture_and_process_frame frombytesBGRX
      rw [if_neg hlen]
      rfl
  · intro n
    unfold handler
    rw [streamLoop_replicate_success]
    show handlerFromOutcome ⟨0 + n, some .invalidFrame⟩ = _
    rw [Nat.zero_add]
    rfl

/-- Witness for C7 on a concrete zero-width frame. -/
theorem c7_invalid_frame_propagates_witness :
    capture_and_process_frame (fun _ _ _ => ⟨0, 0, 0⟩) ⟨0, 5, []⟩
      = .error .invalidFrame :=
  (c7_invalid_frame_propagates (fun _ _ _ => ⟨0, 0, 0⟩) ⟨0, 5, []⟩ (by decide)).1

/-- C8: each completed iteration runs capture, transform, send and then the
fixed `sleep (1 / TARGET_FPS)` strictly in that order with nothing
pipelined; the sleep interval is a constant not reduced by the time the
other calls took, so `n` frames take at least `n / TARGET_FPS` seconds and
the achieved rate is at most `TARGET_FPS`. -/
theorem c8_loop_order_and_rate (n : Nat) (dur : Action → ℚ)
    (hpos : ∀ a, 0 ≤ dur a) (hsleep : ∀ q, q ≤ dur (.sleep q)) :
    loopTrace (List.replicate n .success) = (List.replicate n successBlock).flatten ∧
    successBlock = [.capture, .transform, .send, .sleep SLEEP_INTERVAL] ∧
    SLEEP_INTERVAL = 1 / (TARGET_FPS : ℚ) ∧
    (n : ℚ) * SLEEP_INTERVAL ≤ elapsedTime dur (loopTrace (List.replicate n .success)) ∧
    (n : ℚ) ≤ elapsedTime dur (loopTrace (List.replicate n .success)) * TARGET_FPS := by
  have htrace : loopTrace (List.replicate n .success)
      = (List.replicate n successBlock).flatten := by
    have h := loopTrace_replicate_success n []
    rw [List.append_nil] at h
    rw [h]
    show (List.replicate n successBlock).flatten ++ [] = _
    rw [List.append_nil]
  have hS : SLEEP_INTERVAL = 1 / 20 := by
    norm_num [SLEEP_INTERVAL, TARGET_FPS]
  have hkey : ∀ m : Nat,
      (m : ℚ) * SLEEP_INTERVAL ≤ elapsedTime dur ((List.replicate m successBlock).flatten) := by
    intro m
    induction m with
    | zero =>
        show (0 : ℚ) * SLEEP_INTERVAL ≤ 0
        rw [zero_mul]
    | succ p ih =>
        rw [List.replicate_succ, List.flatten_cons, elapsedTime_append]
        have hblock : SLEEP_INTERVAL ≤ elapsedTime dur successBlock := by
          have h1 := hpos .capture
          have h2 := hpos .transform
          have h3 := hpos .send
          have h4 := hsleep SLEEP_INTERVAL
          show SLEEP_INTERVAL
            ≤ dur .capture + (dur .transform + (dur .send + (dur (.sleep SLEEP_INTERVAL) + 0)))
          linarith
        rw [hS] at ih hblock ⊢
        push_cast
        linarith
  have hmain := hkey n
  rw [← htrace] at hmain
  have hT : ((TARGET_FPS : Nat) : ℚ) = 20 := by norm_num [TARGET_FPS]
  refine ⟨htrace, rfl, by rw [hS, hT], hmain, ?_⟩
  rw [hT]
  rw [hS] at hmain
  linarith

/-- Witness for C8 at `n = 5` with a duration model where every call is
instantaneous and every sleep lasts exactly its interval. -/
theorem c8_loop_order_and_rate_witness :
    (5 : ℚ) * SLEEP_INTERVAL
      ≤ elapsedTime (fun a => match a with | .sleep q => max q 0 | _ => 0)
          (loopTrace (List.replicate 5 .success)) :=
  (c8_loop_order_and_rate 5 (fun a => match a with | .sleep q => max q 0 | _ => 0)
    (fun a => by cases a <;> simp) (fun q => by simp)).2.2.2.1

/-- C9: every exception of either kind, raised by any of the three calls in
the loop body, is caught inside `handler` (nothing is ever re-raised); the
outcome does not depend on which call raised, and the `except` dispatch
does not distinguish a capture failure from an invalid frame — both take
the generic branch; and whenever the session closes, the capture resource
has been released before `handler` returns. -/
theorem c9_uniform_exception_handling :
    (∀ sched, (handler sched).raised = false) ∧
    (∀ sched, (handler sched).status = .closed → (handler sched).captureReleased = true) ∧
    (∀ pre k, handler (pre ++ [.captureRaise k]) = handler (pre ++ [.transformRaise k]) ∧
      handler (pre ++ [.transformRaise k]) = handler (pre ++ [.sendRaise k])) ∧
    handlerBranch .captureUnavailable = handlerBranch .invalidFrame := by
  refine ⟨?_, ?_, ?_, rfl⟩
  · intro sched
    exact handlerFromOutcome_raised _
  · intro sched h
    exact handlerFromOutcome_released _ h
  · intro pre k
    unfold handler
    exact ⟨congrArg _ (streamLoop_raise_pair pre k 0).1,
      congrArg _ (streamLoop_raise_pair pre k 0).2⟩

/-- Witness for C9's release property on a concrete one-iteration failing
session. -/
theorem c9_uniform_exception_handling_witness :
    (handler [.captureRaise .captureUnavailable]).captureReleased = true :=
  c9_uniform_exception_handling.2.1 [.captureRaise .captureUnavailable] (by decide)

end ScreenStreamer
